import Mathlib

/-!
Verification of the WaddleWang / PolicyAssist retrieval-and-grounding pipeline.

Shallow embedding of `src/backend/app/{rag,classifier,sections,diff,vector_store}.py`.
Pure Python functions become Lean functions; external capabilities (the Chroma
vector index, the embedder, the LLM generator) are passed in as explicit
parameters holding the values they would return, exactly where the Python code
calls them.  Python floats are modelled as exact rationals (`ℚ`); all the
thresholds in the source (0.75, 0.5, 0.9, 0.70) are exactly representable.
Python strings are modelled at code-point level; the string helpers below are
faithful for ASCII text.
-/

namespace PolicyAssist

/-! ### Python string primitives -/

/-- Python whitespace characters (`str.strip`, `\s`, `str.split()`), ASCII range. -/
def isPyWs (c : Char) : Bool :=
  c = ' ' || c = '\t' || c = '\n' || c = '\r' || c = '\x0b' || c = '\x0c'

/-- Python `str.strip()`. -/
def pyStrip (s : String) : String :=
  ⟨((s.data.dropWhile isPyWs).reverse.dropWhile isPyWs).reverse⟩

/-- Python slicing `s[:n]` (by code points). -/
def strTake (n : Nat) (s : String) : String := ⟨s.data.take n⟩

/-- Python `s.startswith(p)`. -/
def strStartsWith (s p : String) : Bool := p.data.isPrefixOf s.data

/-- Python `str.lower()` (ASCII). -/
def pyLower (s : String) : String := ⟨s.data.map Char.toLower⟩

/-- Python `str.upper()` (ASCII). -/
def pyUpper (s : String) : String := ⟨s.data.map Char.toUpper⟩

/-- ASCII letter test (the cased characters of the inputs we model). -/
def isAsciiLetter (c : Char) : Bool :=
  ('A' ≤ c && c ≤ 'Z') || ('a' ≤ c && c ≤ 'z')

/-- Worker for `pyTitle`: the flag records whether the previous char was cased. -/
def pyTitleAux : List Char → Bool → List Char
  | [], _ => []
  | c :: rest, prevAlpha =>
    (if isAsciiLetter c then (if prevAlpha then c.toLower else c.toUpper) else c)
      :: pyTitleAux rest (isAsciiLetter c)

/-- Python `str.title()` (ASCII): word starts are uppercased, the rest lowercased. -/
def pyTitle (s : String) : String := ⟨pyTitleAux s.data false⟩

/-- Worker for `pySplitlines`; `acc` holds the current line reversed and the
flag records that the previous char was a `\r` (so a following `\n` belongs
to the same `\r\n` line break). -/
def splitlinesAux : List Char → List Char → Bool → List String
  | [], acc, _ => if acc.isEmpty then [] else [⟨acc.reverse⟩]
  | c :: rest, acc, prevCR =>
    if c = '\n' then
      if prevCR then splitlinesAux rest [] false
      else (⟨acc.reverse⟩ : String) :: splitlinesAux rest [] false
    else if c = '\r' then (⟨acc.reverse⟩ : String) :: splitlinesAux rest [] true
    else splitlinesAux rest (c :: acc) false

/-- Python `str.splitlines()` (over `\n`, `\r`, `\r\n`). -/
def pySplitlines (s : String) : List String := splitlinesAux s.data [] false

/-- Worker for `pySplitWs`; `acc` holds the current word reversed. -/
def splitWsAux : List Char → List Char → List String
  | [], acc => if acc.isEmpty then [] else [⟨acc.reverse⟩]
  | c :: rest, acc =>
    if isPyWs c then
      if acc.isEmpty then splitWsAux rest []
      else (⟨acc.reverse⟩ : String) :: splitWsAux rest []
    else splitWsAux rest (c :: acc)

/-- Python `str.split()` with no argument: the maximal non-whitespace runs. -/
def pySplitWs (s : String) : List String := splitWsAux s.data []

/-! ### Data model

`Document` mirrors the langchain `Document` objects flowing through the app:
`page_content` plus the metadata keys this code base reads (`page`, `chunk_id`,
`is_table`).  A `none` field models an absent metadata key (Python
`metadata.get(key)` returning the default). -/

structure Document where
  page_content : String
  page : Option Int
  chunk_id : Option String
  is_table : Bool
deriving DecidableEq, Repr

/-- Citation dict built by `_build_sources` in rag.py: `{"page": int, "excerpt": str}`. -/
structure Citation where
  page : Int
  excerpt : String
deriving DecidableEq, Repr

/-- Result dict of `answer_question` in rag.py. -/
structure AnswerResult where
  answer : String
  confidence : String
  sources : List Citation
  gap_detected : Bool
  suggestion : Option String
deriving DecidableEq, Repr

/-! ### classifier.py — rule-based query classifier

The four compiled regexes are of the shape `\b(alt1|alt2|...)\b` with
`re.IGNORECASE`; each alternative is either a literal phrase or a phrase with
a single `.*` in the middle.  Every alternative begins and ends with a letter,
so the surrounding `\b` anchors reduce to "the char before the match (if any)
is not a word char" and "the char after the match (if any) is not a word
char".  `re.search` succeeds iff some start position admits a match. -/

/-- Dataclass `QueryClass` from classifier.py. -/
structure QueryClass where
  label : String
  top_k : Nat
  reason : String
deriving DecidableEq, Repr

/-- One alternative of a `\b( ... )\b` pattern group: a literal phrase, or a
phrase `a.*b` with a greedy gap (used by `what does .* say`,
`what is the .* section`, `is .* covered`). -/
inductive PatAlt where
  | lit (s : String)
  | gapped (a b : String)
deriving DecidableEq, Repr

/-- Python regex `\w` (ASCII): letters, digits, underscore. -/
def isWordChar (c : Char) : Bool :=
  isAsciiLetter c || c.isDigit || c = '_'

/-- The literal `p` occurs at position `i` of `cs`. -/
def litAt (cs : List Char) (i : Nat) (p : String) : Bool :=
  p.data.isPrefixOf (cs.drop i)

/-- `\b` holds just after position `j` (i.e. `cs[j]`, if any, is not a word
char); used for the right anchor, whose left side is always a letter. -/
def boundaryAfter (cs : List Char) (j : Nat) : Bool :=
  decide (cs.length ≤ j) || !isWordChar (cs.getD j ' ')

/-- `\b` holds just before position `i` (i.e. `cs[i-1]`, if any, is not a word
char); used for the left anchor, whose right side is always a letter. -/
def boundaryBefore (cs : List Char) (i : Nat) : Bool :=
  decide (i = 0) || !isWordChar (cs.getD (i - 1) ' ')

/-- The alternative matches at position `i` with the closing `\b` satisfied.
For a gapped alternative the `.*` may span any run of non-newline chars. -/
def altMatchesAt (cs : List Char) (i : Nat) : PatAlt → Bool
  | .lit p => litAt cs i p && boundaryAfter cs (i + p.data.length)
  | .gapped a b =>
    litAt cs i a &&
      (List.range (cs.length + 1)).any (fun j =>
        decide (i + a.data.length ≤ j) &&
        ((cs.drop (i + a.data.length)).take (j - (i + a.data.length))).all (· ≠ '\n') &&
        litAt cs j b && boundaryAfter cs (j + b.data.length))

/-- `re.search` of `\b(alt1|alt2|...)\b` with `re.IGNORECASE` over `text`. -/
def patSearch (alts : List PatAlt) (text : String) : Bool :=
  let cs := (pyLower text).data
  (List.range (cs.length + 1)).any (fun i =>
    boundaryBefore cs i && alts.any (altMatchesAt cs i))

/-- `_NUMERIC_PATTERNS` from classifier.py. -/
def numericAlts : List PatAlt :=
  [.lit "how much", .lit "how many", .lit "maximum", .lit "minimum", .lit "limit",
   .lit "rate", .lit "amount", .lit "percentage", .lit "reimbursement", .lit "salary",
   .lit "allowance", .lit "days", .lit "hours", .lit "quota", .lit "cap",
   .lit "ceiling", .lit "floor", .lit "penalty", .lit "fine", .lit "fee",
   .lit "cost", .lit "price", .lit "budget"]

/-- `_SCENARIO_PATTERNS` from classifier.py. -/
def scenarioAlts : List PatAlt :=
  [.lit "if i", .lit "what if", .lit "what happens", .lit "suppose", .lit "suppose i",
   .lit "scenario", .lit "case where", .lit "i was", .lit "i am", .lit "i have",
   .lit "i missed", .lit "i submitted", .lit "i failed to", .lit "i did not",
   .lit "employee who", .lit "worker who", .lit "staff who", .lit "can i",
   .lit "am i eligible", .lit "will i", .lit "would i", .lit "is it allowed",
   .lit "is it permissible", .lit "can an employee"]

/-- `_SUMMARY_PATTERNS` from classifier.py. -/
def summaryAlts : List PatAlt :=
  [.lit "summarize", .lit "summary", .lit "overview", .lit "outline", .lit "briefly",
   .gapped "what does " " say", .lit "give me an overview", .lit "describe the",
   .lit "explain the", .gapped "what is the " " section",
   .lit "what are the main points", .lit "key points", .lit "highlights"]

/-- `_GAP_PATTERNS` from classifier.py. -/
def gapAlts : List PatAlt :=
  [.lit "is there a policy", .lit "does the document", .lit "does it mention",
   .lit "is there any mention", .lit "is there information", .lit "does the company have",
   .lit "do they have a policy", .lit "does it cover", .gapped "is " " covered",
   .lit "not mentioned", .lit "not covered", .lit "missing policy"]

/-- `classify_query` from classifier.py: ordered precedence gap → scenario →
summary → numeric → default factual. -/
def classify_query (question : String) : QueryClass :=
  let q := pyStrip question
  if patSearch gapAlts q then
    { label := "policy_gap", top_k := 3,
      reason := "Question asks whether a topic is covered in the document." }
  else if patSearch scenarioAlts q then
    { label := "scenario_analysis", top_k := 7,
      reason := "Question describes a hypothetical or real-world scenario." }
  else if patSearch summaryAlts q then
    { label := "summary_request", top_k := 10,
      reason := "Question asks for a summary or overview." }
  else if patSearch numericAlts q then
    { label := "numeric_lookup", top_k := 4,
      reason := "Question asks for a numeric value or limit." }
  else
    { label := "factual_lookup", top_k := 5,
      reason := "General factual policy question." }

/-! ### sections.py — heading detection and section splitting -/

/-- Uppercase ASCII letter (regex class `[A-Z]`). -/
def isUpperAZ (c : Char) : Bool := 'A' ≤ c && c ≤ 'Z'

/-- `\s+\S` anchored at the head of `l`: at least one whitespace char, then a
non-whitespace char. -/
def wsThenNonWs (l : List Char) : Bool :=
  match l with
  | c :: rest => isPyWs c && !(rest.dropWhile isPyWs).isEmpty
  | [] => false

/-- Scanner for the tail `(\.\d+)*\.?\s+\S` of `_NUMBERED_RE`, entered right
after the first digit.  The flag records that the previous char was a dot
(which then must be followed by a digit, or be the final optional dot followed
by whitespace).  The digit-vs-not lookahead after a dot makes the regex
backtracking deterministic. -/

def numScan : Bool → List Char → Bool
  | _, [] => false
  | afterDot, c :: rest =>
    if c.isDigit then numScan false rest
    else if afterDot then wsThenNonWs (c :: rest)
    else if c = '.' then numScan true rest
    else wsThenNonWs (c :: rest)

/-- `_NUMBERED_RE.match`: `^\d+(\.\d+)*\.?\s+\S`. -/
def matchNumbered (l : List Char) : Bool :=
  match l with
  | c :: rest => c.isDigit && numScan false rest
  | [] => false

/-- Middle class of `_ALLCAPS_RE`: `[A-Z\s\-&/,]`. -/
def allcapsMid (c : Char) : Bool :=
  isUpperAZ c || isPyWs c || c = '-' || c = '&' || c = '/' || c = ','

/-- `_ALLCAPS_RE.match`: `^[A-Z][A-Z\s\-&/,]{4,}[A-Z]$`.  Since the middle
class contains `[A-Z]`, a string matches iff it is ≥ 6 chars long, starts and
ends with an uppercase letter, and all middle chars are in the class. -/
def matchAllcaps (l : List Char) : Bool :=
  match l with
  | [] => false
  | c :: rest =>
    isUpperAZ c && decide (5 ≤ rest.length) &&
      (match rest.getLast? with | some d => isUpperAZ d | none => false) &&
      rest.dropLast.all allcapsMid

/-- Worker for `matchTitlecase`, a maximal-munch scanner for
`(\s+[A-Z][a-zA-Z]*)*` counting the capitalized words.  States: `0` = at a
word boundary (a whitespace run may start a new group), `1` = inside a
whitespace run (an uppercase letter starts the next word), `2` = inside a
word.  Returns the word count and the unconsumed suffix (the suffix may omit
already-consumed whitespace, which the punctuation tail class accepts
anyway). -/
def titleScan : Nat → Nat → List Char → Nat × List Char
  | _, n, [] => (n, [])
  | 0, n, c :: rest =>
    if isPyWs c then titleScan 1 n rest else (n, c :: rest)
  | 1, n, c :: rest =>
    if isPyWs c then titleScan 1 n rest
    else if isUpperAZ c then titleScan 2 (n + 1) rest
    else (n, c :: rest)
  | _, n, c :: rest =>
    if isAsciiLetter c then titleScan 2 n rest
    else if isPyWs c then titleScan 1 n rest
    else (n, c :: rest)

/-- `_TITLECASE_RE.match`: `^([A-Z][a-zA-Z]*(\s+[A-Z][a-zA-Z]*){2,})[^.,:;!?]*$`.
Maximal-munch parsing of the capitalized words is complete here: shrinking a
letter run can never enable an extra `\s+`-led group, and a shorter parse only
enlarges the tail suffix, which must avoid the punctuation class anyway. -/
def matchTitlecase (l : List Char) : Bool :=
  match l with
  | [] => false
  | c :: rest =>
    if isUpperAZ c then
      let p := titleScan 2 1 rest
      decide (3 ≤ p.1) &&
        p.2.all (fun ch => !(ch = '.' || ch = ',' || ch = ':' || ch = ';' || ch = '!' || ch = '?'))
    else false

/-- `_is_heading` from sections.py. -/
def _is_heading (line : String) : Bool :=
  let l := pyStrip line
  let cs := l.data
  if cs.isEmpty then false
  else if decide (80 < cs.length) then false
  else if decide ((pySplitWs l).length < 2) then false
  else if (match cs.getLast? with
           | some c => ['.', '?', '!', ';', ','].contains c
           | none => false) then false
  else matchNumbered cs || matchAllcaps cs || matchTitlecase cs

/-- `_clean_heading` from sections.py. -/
def _clean_heading (line : String) : String :=
  if line = pyUpper line then pyTitle line else pyStrip line

/-- Section dict produced by `detect_sections`. -/
structure DocSection where
  section_name : String
  text : String
  start_page : Int
  end_page : Int
deriving DecidableEq, Repr

/-- The inner `_save` closure of `detect_sections`: append the current section
if it exists and its text is non-blank. -/
def saveSec (sections : List DocSection) : Option DocSection → List DocSection
  | some sec => if pyStrip sec.text = "" then sections else sections ++ [sec]
  | none => sections

/-- One step of the line loop in `detect_sections`. -/
def sectionStep (st : List DocSection × Option DocSection) (pl : Int × String) :
    List DocSection × Option DocSection :=
  let (sections, current) := st
  let (page, line) := pl
  if _is_heading line then
    (saveSec sections current, some ⟨_clean_heading line, "", page, page⟩)
  else
    match current with
    | none => (sections, some ⟨"Introduction / General", " " ++ line, page, page⟩)
    | some cur => (sections, some { cur with text := cur.text ++ " " ++ line, end_page := page })

/-- The stream of (page, stripped non-blank line) pairs the loop visits. -/
def docLines (docs : List Document) : List (Int × String) :=
  (docs.map (fun d =>
    (pySplitlines d.page_content).filterMap (fun raw =>
      let line := pyStrip raw
      if line = "" then none else some (d.page.getD 1, line)))).flatten

/-- `detect_sections` from sections.py. -/
def detect_sections (docs : List Document) : List DocSection :=
  let st := (docLines docs).foldl sectionStep ([], none)
  let sections := saveSec st.1 st.2
  if sections.isEmpty then
    [⟨"Document Overview",
      String.intercalate " " (docs.map Document.page_content),
      ((docs.head?).map (fun d => d.page.getD 1)).getD 1,
      ((docs.getLast?).map (fun d => d.page.getD 1)).getD 1⟩]
  else sections

/-! ### rag.py — retrieval-grounded answering

The LLM and the vector store are external capabilities: `answer_question`
below takes the values they would return (the scored retrieval results, the
table-search results, the generated answer string) as parameters, at exactly
the points where the Python code calls them.  Scores are exact rationals. -/

/-- `REFUSAL_TEXT` from rag.py. -/
def REFUSAL_TEXT : String := "The document does not contain this information."

/-- `_GAP_SUGGESTION` from rag.py. -/
def _GAP_SUGGESTION : String :=
  "Consider adding a dedicated policy section for this topic to improve clarity and ensure employees have clear guidance."

/-- Python `max` over a list of floats (0 is never used: all call sites guard
against the empty list). -/
def listMax : List ℚ → ℚ
  | [] => 0
  | x :: xs => xs.foldl max x

/-- `compute_confidence` from rag.py. -/
def compute_confidence (docs_with_scores : List (Document × ℚ)) : String :=
  if docs_with_scores.isEmpty then "Low"
  else
    let top_score := listMax (docs_with_scores.map Prod.snd)
    if top_score ≥ mkRat 3 4 then "High"
    else if top_score ≥ mkRat 1 2 then "Medium"
    else "Low"

/-- `_smart_excerpt` from rag.py (with the default `max_len = 300`). -/
def _smart_excerpt (text : String) : String :=
  let lines := (pySplitlines (pyStrip text)).map pyStrip
  let start_idx := (lines.findIdx (fun l => 35 ≤ l.length))
  let start_idx := if start_idx = lines.length then 0 else start_idx
  let excerpt := pyStrip (String.intercalate " " ((lines.drop start_idx).filter (· ≠ "")))
  if 300 < excerpt.length then strTake 300 excerpt else excerpt

/-- Worker for `_build_sources`; `seen` is the set of chunk ids already cited. -/
def buildSourcesAux : List Document → List String → List Citation
  | [], _ => []
  | d :: rest, seen =>
    let cid := d.chunk_id.getD ""
    if cid ∈ seen then buildSourcesAux rest seen
    else ⟨d.page.getD 0, _smart_excerpt d.page_content⟩ :: buildSourcesAux rest (cid :: seen)

/-- `_build_sources` from rag.py: citations from retrieved chunk metadata,
deduplicated by `chunk_id`, preserving retrieval order. -/
def _build_sources (docs : List Document) : List Citation :=
  buildSourcesAux docs []

/-- The numeric-query merge step of `answer_question` (rag.py lines 184-192):
table chunks whose `chunk_id` is not among the regular results are prepended
with the injected relevance score 0.9. -/
def numericMerge (table_docs : List Document) (docs_with_scores : List (Document × ℚ)) :
    List (Document × ℚ) :=
  let all_docs := docs_with_scores.map Prod.fst
  let extra := table_docs.filter
    (fun d => decide (d.chunk_id ∉ all_docs.map Document.chunk_id))
  extra.map (fun d => (d, mkRat 9 10)) ++ docs_with_scores

/-- `answer_question` from rag.py.  `retrieved` is what
`search_similar_with_scores` returned, `table_docs` what `search_tables`
returned (consulted only for `numeric_lookup`), and `llm_answer` the string
the generation chain would produce for the built context. -/
def answer_question (query_label : String) (table_docs : List Document)
    (retrieved : List (Document × ℚ)) (llm_answer : String) : AnswerResult :=
  let docs_with_scores :=
    if query_label = "numeric_lookup" then numericMerge table_docs retrieved
    else retrieved
  let all_docs := docs_with_scores.map Prod.fst
  if all_docs.isEmpty then
    { answer := "No relevant content was found in the uploaded documents. Please upload policy documents first or rephrase your question.",
      confidence := "Low", sources := [], gap_detected := true,
      suggestion := some "Please upload relevant policy documents before querying." }
  else
    let confidence := compute_confidence docs_with_scores
    if strStartsWith (pyStrip llm_answer) (strTake 40 REFUSAL_TEXT) then
      { answer := REFUSAL_TEXT, confidence := "Low", sources := [],
        gap_detected := true, suggestion := some _GAP_SUGGESTION }
    else
      { answer := pyStrip llm_answer, confidence := confidence,
        sources := _build_sources all_docs, gap_detected := false, suggestion := none }

/-! ### vector_store.py — `search_tables`

The two Chroma calls are external: `filtered` is the outcome of the
`is_table`-filtered `similarity_search` (which the Python code wraps in
`try/except`), `fallback` the result of the plain `similarity_search` used
when the filtered call raises or finds nothing. -/

/-- `search_tables` from vector_store.py. -/
def search_tables (filtered : Except String (List Document)) (fallback : List Document) :
    List Document :=
  match filtered with
  | .ok results => if results.isEmpty then fallback else results
  | .error _ => fallback

/-! ### diff.py — semantic document diff

`compare_documents` fetches all chunks of the two isolated collections,
batch-embeds both sides, L2-normalizes, and takes pairwise dot products.
The fetch results are the `chunks_a`/`chunks_b` parameters here, and the
whole embed-normalize-dot pipeline is abstracted as `simf`, a deterministic
function of the two chunk texts (the embedder is a pure capability: equal
texts get equal vectors, hence equal similarities).  Everything after the
similarity matrix is translated from the source line by line. -/

/-- Python `round(x, 3)` on exact values: round half to even at 3 decimals. -/
def pyRound3 (q : ℚ) : ℚ :=
  let x := q * 1000
  let f := ⌊x⌋
  let r := x - f
  let n : ℤ :=
    if r < mkRat 1 2 then f
    else if mkRat 1 2 < r then f + 1
    else if f % 2 = 0 then f else f + 1
  mkRat n 1000

/-- One `added_in_b` / `removed_in_b` item of the diff result. -/
structure DiffEntry where
  page : Option Int
  excerpt : String
  similarity : ℚ
deriving DecidableEq, Repr

/-- The success dict of `compare_documents`. -/
structure DiffResult where
  source_a : String
  source_b : String
  added_in_b : List DiffEntry
  removed_in_b : List DiffEntry
  common_count : Nat
  summary : String
deriving DecidableEq, Repr

/-- `compare_documents` either returns an error dict naming the missing side
or a `DiffResult`. -/
inductive DiffOutcome where
  | err (error source_a source_b : String)
  | ok (result : DiffResult)
deriving DecidableEq, Repr

/-- `sim[i].max()` / `sim[:, j].max()`: the best-match similarity of one chunk
against the other side (call sites guarantee a non-empty list). -/
def bestScoreA (chunks_b : List Document) (simf : String → String → ℚ) (ca : Document) : ℚ :=
  listMax (chunks_b.map (fun cb => simf ca.page_content cb.page_content))

def bestScoreB (chunks_a : List Document) (simf : String → String → ℚ) (cb : Document) : ℚ :=
  listMax (chunks_a.map (fun ca => simf ca.page_content cb.page_content))

/-- The dict appended for a removed/added chunk: page, raw 250-char stripped
excerpt, similarity rounded to 3 decimals. -/
def diffEntryOf (c : Document) (score : ℚ) : DiffEntry :=
  { page := c.page, excerpt := pyStrip (strTake 250 c.page_content), similarity := pyRound3 score }

/-- `compare_documents` from diff.py (after the two `_get_all_chunks` fetches,
whose results are `chunks_a` and `chunks_b`).  `SIMILARITY_THRESHOLD = 0.70`. -/
def compare_documents (collection_a collection_b : String)
    (chunks_a chunks_b : List Document) (simf : String → String → ℚ) : DiffOutcome :=
  if chunks_a.isEmpty && chunks_b.isEmpty then
    .err "Neither document was found. Please upload both documents using the Compare tab."
      collection_a collection_b
  else if chunks_a.isEmpty then
    .err ("Document A has no indexed content (collection: " ++ collection_a ++ ").")
      collection_a collection_b
  else if chunks_b.isEmpty then
    .err ("Document B has no indexed content (collection: " ++ collection_b ++ ").")
      collection_a collection_b
  else
    let removed_in_b := (chunks_a.filter (fun ca => decide (bestScoreA chunks_b simf ca < mkRat 7 10))).map
      (fun ca => diffEntryOf ca (bestScoreA chunks_b simf ca))
    let common_count := (chunks_a.filter (fun ca => decide (¬ bestScoreA chunks_b simf ca < mkRat 7 10))).length
    let added_in_b := (chunks_b.filter (fun cb => decide (bestScoreB chunks_a simf cb < mkRat 7 10))).map
      (fun cb => diffEntryOf cb (bestScoreB chunks_a simf cb))
    let summary :=
      if removed_in_b.isEmpty && added_in_b.isEmpty then
        "The two documents appear semantically identical."
      else
        String.intercalate " "
          ((if removed_in_b.isEmpty then [] else
              [toString removed_in_b.length ++
               " section(s) from Document A have no close match in Document B — possibly revised or removed."]) ++
           (if added_in_b.isEmpty then [] else
              [toString added_in_b.length ++
               " section(s) in Document B have no close match in Document A — possibly new content."]) ++
           [toString common_count ++ " section(s) are semantically common to both documents."])
    .ok { source_a := collection_a, source_b := collection_b,
          added_in_b := added_in_b.take 20, removed_in_b := removed_in_b.take 20,
          common_count := common_count, summary := summary }

/-! ### Shared helper lemmas and sample data -/

/-- The seed is a lower bound of a `max`-fold. -/
theorem le_foldl_max (l : List ℚ) (a : ℚ) : a ≤ l.foldl max a := by
  induction l generalizing a with
  | nil => exact le_refl a
  | cons x xs ih => exact le_trans (le_max_left a x) (ih (max a x))

/-- Every element is a lower bound of a `max`-fold. -/
theorem mem_le_foldl_max (l : List ℚ) (a x : ℚ) (hx : x ∈ l) : x ≤ l.foldl max a := by
  induction l generalizing a with
  | nil => cases hx
  | cons y ys ih =>
    rcases List.mem_cons.mp hx with h | h
    · subst h
      exact le_trans (le_max_right a x) (le_foldl_max ys (max a x))
    · exact ih (max a y) h

/-- Every element of a non-empty list is at most its `listMax` (Python `max`). -/
theorem mem_le_listMax (l : List ℚ) (x : ℚ) (hx : x ∈ l) : x ≤ listMax l := by
  cases l with
  | nil => cases hx
  | cons y ys =>
    rcases List.mem_cons.mp hx with h | h
    · subst h; exact le_foldl_max ys x
    · exact mem_le_foldl_max ys y x h

/-- Sample prose chunk used in concrete witnesses. -/
def sampleDoc : Document :=
  { page_content := "Annual leave is capped at 30 days per calendar year for all employees.",
    page := some 3, chunk_id := some "policy_p3_c0", is_table := false }

/-- Sample table chunk used in concrete witnesses. -/
def sampleTableDoc : Document :=
  { page_content := "| Grade | Max Days |\n| A | 30 |",
    page := some 4, chunk_id := some "policy_table_p4_t0", is_table := true }

/-- Sample chunk with the same text as `sampleDoc` but a different id/page. -/
def sampleDocB : Document :=
  { page_content := "Annual leave is capped at 30 days per calendar year for all employees.",
    page := some 5, chunk_id := some "policyB_p5_c0", is_table := false }

/-! ### Claim theorems -/

/-- Claim C3: `compute_confidence` maps a scored chunk set to exactly one of
High/Medium/Low by the maximum score with closed lower boundaries: top score
≥ 0.75 gives High, 0.50 ≤ top < 0.75 gives Medium (0.749999 is Medium and 0.5
is Medium), top < 0.50 gives Low (0.4999 is Low), and an empty list gives
Low. -/
theorem compute_confidence_thresholds :
    compute_confidence [] = "Low" ∧
    (∀ dws : List (Document × ℚ), dws ≠ [] →
      ((listMax (dws.map Prod.snd) ≥ mkRat 3 4 → compute_confidence dws = "High") ∧
       (listMax (dws.map Prod.snd) ≥ mkRat 1 2 → listMax (dws.map Prod.snd) < mkRat 3 4 →
          compute_confidence dws = "Medium") ∧
       (listMax (dws.map Prod.snd) < mkRat 1 2 → compute_confidence dws = "Low"))) ∧
    compute_confidence [(sampleDoc, mkRat 3 4)] = "High" ∧
    compute_confidence [(sampleDoc, mkRat 749999 1000000)] = "Medium" ∧
    compute_confidence [(sampleDoc, mkRat 1 2)] = "Medium" ∧
    compute_confidence [(sampleDoc, mkRat 4999 10000)] = "Low" := by
  refine ⟨rfl, ?_, by decide, by decide, by decide, by decide⟩
  intro dws hne
  have hie : dws.isEmpty = false := by
    cases dws with
    | nil => exact absurd rfl hne
    | cons x xs => rfl
  refine ⟨?_, ?_, ?_⟩
  · intro h
    simp only [compute_confidence, hie, Bool.false_eq_true, if_false]
    rw [if_pos h]
  · intro h1 h2
    simp only [compute_confidence, hie, Bool.false_eq_true, if_false]
    rw [if_neg (not_le.mpr h2), if_pos h1]
  · intro h
    simp only [compute_confidence, hie, Bool.false_eq_true, if_false]
    rw [if_neg (not_le.mpr (lt_trans h (by decide))), if_neg (not_le.mpr h)]

/-- Witness for C3: the theorem applied at the concrete boundary score
0.749999, which lands in Medium. -/
theorem compute_confidence_thresholds_witness :
    compute_confidence [(sampleDoc, mkRat 749999 1000000)] = "Medium" :=
  ((compute_confidence_thresholds.2.1 [(sampleDoc, mkRat 749999 1000000)]
    (by decide)).2.1) (by decide) (by decide)

/-- Claim C8: "3.2 Leave Entitlement" is a heading; "LEAVE POLICY OVERVIEW" is
a heading displayed as "Leave Policy Overview"; "This is a long sentence about
leave." is not a heading; non-all-caps heading text is kept verbatim by
`_clean_heading` (for already-stripped lines). -/
theorem heading_examples :
    _is_heading "3.2 Leave Entitlement" = true ∧
    _is_heading "LEAVE POLICY OVERVIEW" = true ∧
    _clean_heading "LEAVE POLICY OVERVIEW" = "Leave Policy Overview" ∧
    _is_heading "This is a long sentence about leave." = false ∧
    (∀ line : String, pyStrip line = line → pyUpper line ≠ line → _clean_heading line = line) := by
  refine ⟨by decide, by decide, by decide, by decide, ?_⟩
  intro line hstrip hne
  unfold _clean_heading
  rw [if_neg (fun h => hne h.symm), hstrip]

/-- Witness for C8: the verbatim-display clause applied to the concrete
mixed-case heading "3.2 Leave Entitlement". -/
theorem heading_examples_witness :
    pyStrip "3.2 Leave Entitlement" = "3.2 Leave Entitlement" ∧
    pyUpper "3.2 Leave Entitlement" ≠ "3.2 Leave Entitlement" ∧
    _clean_heading "3.2 Leave Entitlement" = "3.2 Leave Entitlement" :=
  ⟨by decide, by decide, heading_examples.2.2.2.2 "3.2 Leave Entitlement" (by decide) (by decide)⟩

/-- Claim C4 (code bug): a document whose lines contain no heading but do
contain prose yields one section named "Introduction / General", not the
"Document Overview" fallback promised by the spec and by sections.py's own
module docstring; the fallback fires only when no section text accumulated at
all (e.g. an empty document). -/
theorem detect_sections_no_heading_bug :
    detect_sections [{ page_content := "just some plain text about leave", page := some 1,
                       chunk_id := none, is_table := false }] =
      [{ section_name := "Introduction / General", text := " just some plain text about leave",
         start_page := 1, end_page := 1 }] ∧
    detect_sections [{ page_content := "", page := some 2, chunk_id := none, is_table := false }] =
      [{ section_name := "Document Overview", text := "", start_page := 2, end_page := 2 }] :=
  ⟨by decide, by decide⟩

/-- Claim C10: `search_tables` returns the filtered results only when the
filtered search succeeds and is non-empty; when it raises or finds nothing it
degrades to the unfiltered search, so a chunk injected with score 0.9 by the
numeric merge need not be a table chunk. -/
theorem search_tables_degrades (filtered : Except String (List Document))
    (fallback : List Document) :
    (∀ rs : List Document, filtered = Except.ok rs → rs ≠ [] →
      search_tables filtered fallback = rs) ∧
    (filtered = Except.ok [] → search_tables filtered fallback = fallback) ∧
    (∀ e : String, filtered = Except.error e → search_tables filtered fallback = fallback) ∧
    (∃ (e : String) (fb : List Document) (dws : List (Document × ℚ)) (d : Document),
      d.is_table = false ∧ (d, mkRat 9 10) ∈ numericMerge (search_tables (Except.error e) fb) dws) := by
  refine ⟨?_, ?_, ?_, "chroma filter unsupported", [sampleDoc], [], sampleDoc, rfl, by decide⟩
  · rintro rs rfl hne
    have : rs.isEmpty = false := by
      cases rs with
      | nil => exact absurd rfl hne
      | cons x xs => rfl
    simp only [search_tables, this, Bool.false_eq_true, if_false]
  · rintro rfl; rfl
  · rintro e rfl; rfl

/-- Witness for C10: a successful non-empty filtered search is returned as is. -/
theorem search_tables_degrades_witness :
    search_tables (Except.ok [sampleTableDoc]) [sampleDoc] = [sampleTableDoc] :=
  (search_tables_degrades (Except.ok [sampleTableDoc]) [sampleDoc]).1 [sampleTableDoc] rfl
    (by decide)

/-- Claim C1: `answer_question` resolves grounding gaps as structured
results: (i) if retrieval returned zero chunks (and, for a numeric query, the
table search also returned none) the fixed no-content result is returned with
gap_detected, empty sources, Low confidence and a suggestion; (ii) if the
generator output equals exactly the refusal sentinel, the result has
gap_detected, empty sources, confidence forced to Low and a suggestion,
regardless of the retrieval scores. -/
theorem answer_question_grounding_gaps (query_label : String) (table_docs : List Document)
    (retrieved : List (Document × ℚ)) (llm_answer : String) :
    ((retrieved = [] ∧ (query_label = "numeric_lookup" → table_docs = [])) →
      answer_question query_label table_docs retrieved llm_answer =
        { answer := "No relevant content was found in the uploaded documents. Please upload policy documents first or rephrase your question.",
          confidence := "Low", sources := [], gap_detected := true,
          suggestion := some "Please upload relevant policy documents before querying." }) ∧
    (llm_answer = REFUSAL_TEXT →
      (answer_question query_label table_docs retrieved llm_answer).gap_detected = true ∧
      (answer_question query_label table_docs retrieved llm_answer).sources = [] ∧
      (answer_question query_label table_docs retrieved llm_answer).confidence = "Low" ∧
      (answer_question query_label table_docs retrieved llm_answer).suggestion ≠ none) := by
  constructor
  · rintro ⟨hr, ht⟩
    subst hr
    by_cases hq : query_label = "numeric_lookup"
    · rw [ht hq]
      simp [answer_question, numericMerge, hq]
    · simp [answer_question, hq]
  · intro ha
    subst ha
    simp only [answer_question]
    by_cases h :
        ((if query_label = "numeric_lookup" then numericMerge table_docs retrieved
          else retrieved).map Prod.fst).isEmpty = true
    · rw [if_pos h]
      exact ⟨rfl, rfl, rfl, by simp⟩
    · rw [if_neg h,
        if_pos (show strStartsWith (pyStrip REFUSAL_TEXT) (strTake 40 REFUSAL_TEXT) = true by decide)]
      exact ⟨rfl, rfl, rfl, by simp⟩

/-- Witness for C1: both gap branches at concrete inputs — empty retrieval,
and the exact refusal sentinel with a high-scoring retrieved chunk. -/
theorem answer_question_grounding_gaps_witness :
    (answer_question "factual_lookup" [] [] "Leave is capped at 30 days.").gap_detected = true ∧
    (answer_question "factual_lookup" [] [(sampleDoc, mkRat 9 10)] REFUSAL_TEXT).confidence = "Low" ∧
    (answer_question "factual_lookup" [] [(sampleDoc, mkRat 9 10)] REFUSAL_TEXT).sources = [] := by
  refine ⟨?_, ?_, ?_⟩
  · rw [(answer_question_grounding_gaps "factual_lookup" [] [] "Leave is capped at 30 days.").1
      ⟨rfl, fun h => rfl⟩]
  · exact ((answer_question_grounding_gaps "factual_lookup" [] [(sampleDoc, mkRat 9 10)]
      REFUSAL_TEXT).2 rfl).2.2.1
  · exact ((answer_question_grounding_gaps "factual_lookup" [] [(sampleDoc, mkRat 9 10)]
      REFUSAL_TEXT).2 rfl).2.1

/-- Claim C9 (corrected): refusal detection is a prefix match on the FIRST 40
CHARACTERS of the sentinel — which are "The document does not contain this
infor", not the 43-char string "The document does not contain this informat"
named by the claim.  An answer extending the true 40-char prefix with
different text still triggers the gap branch (and is replaced by the full
sentinel) even though it does not start with the claim's 43-char string. -/
theorem refusal_prefix_cx :
    strStartsWith (pyStrip "The document does not contain this inforXYZ")
      "The document does not contain this informat" = false ∧
    strTake 40 REFUSAL_TEXT = "The document does not contain this infor" ∧
    (answer_question "factual_lookup" [] [(sampleDoc, mkRat 9 10)]
        "The document does not contain this inforXYZ").gap_detected = true ∧
    (answer_question "factual_lookup" [] [(sampleDoc, mkRat 9 10)]
        "The document does not contain this inforXYZ").answer = REFUSAL_TEXT :=
  ⟨by decide, by decide, by decide, by decide⟩

/-- Claim C9 (amended): with a non-empty retrieval, the gap branch triggers
iff the stripped generated answer starts with the first 40 characters of the
refusal sentinel; any such answer is replaced by the full sentinel with empty
sources and Low confidence, and an answer containing the sentinel elsewhere
(not as its stripped prefix) is not treated as a gap. -/
theorem refusal_prefix_spec (query_label : String) (table_docs : List Document)
    (retrieved : List (Document × ℚ)) (llm_answer : String) (hne : retrieved ≠ []) :
    (answer_question query_label table_docs retrieved llm_answer).gap_detected =
      strStartsWith (pyStrip llm_answer) (strTake 40 REFUSAL_TEXT) ∧
    (strStartsWith (pyStrip llm_answer) (strTake 40 REFUSAL_TEXT) = true →
      (answer_question query_label table_docs retrieved llm_answer).answer = REFUSAL_TEXT ∧
      (answer_question query_label table_docs retrieved llm_answer).sources = [] ∧
      (answer_question query_label table_docs retrieved llm_answer).confidence = "Low") := by
  have hmne : (if query_label = "numeric_lookup" then numericMerge table_docs retrieved
      else retrieved) ≠ [] := by
    split
    · unfold numericMerge
      intro h
      exact hne (List.append_eq_nil.mp h).2
    · exact hne
  have hie : ((if query_label = "numeric_lookup" then numericMerge table_docs retrieved
      else retrieved).map Prod.fst).isEmpty = false := by
    rcases hl : (if query_label = "numeric_lookup" then numericMerge table_docs retrieved
      else retrieved) with _ | ⟨p, ps⟩
    · exact absurd hl hmne
    · rfl
  simp only [answer_question, hie, Bool.false_eq_true, if_false]
  by_cases hs : strStartsWith (pyStrip llm_answer) (strTake 40 REFUSAL_TEXT) = true
  · rw [if_pos hs, hs]
    exact ⟨rfl, fun _ => ⟨rfl, rfl, rfl⟩⟩
  · rw [if_neg hs, Bool.eq_false_iff.mpr hs]
    exact ⟨rfl, fun h => absurd h Bool.false_ne_true⟩

/-- Witness for C9's amended theorem: a concrete answer extending the 40-char
prefix is gapped and replaced by the sentinel; a concrete answer containing
the sentinel only in the middle is not gapped. -/
theorem refusal_prefix_spec_witness :
    (answer_question "factual_lookup" [] [(sampleDoc, mkRat 8 10)]
        "The document does not contain this information about remote work.").answer = REFUSAL_TEXT ∧
    (answer_question "factual_lookup" [] [(sampleDoc, mkRat 8 10)]
        "Note: The document does not contain this information.").gap_detected = false := by
  constructor
  · exact ((refusal_prefix_spec "factual_lookup" [] [(sampleDoc, mkRat 8 10)]
      "The document does not contain this information about remote work." (by decide)).2
      (by decide)).1
  · rw [(refusal_prefix_spec "factual_lookup" [] [(sampleDoc, mkRat 8 10)]
      "Note: The document does not contain this information." (by decide)).1]
    decide

/-- Any match of a sub-list of alternatives is a match of the full list
(`re.search` monotonicity in the alternation). -/
theorem patSearch_mono (alts alts' : List PatAlt) (text : String)
    (hsub : ∀ a ∈ alts, a ∈ alts') (h : patSearch alts text = true) :
    patSearch alts' text = true := by
  unfold patSearch at h ⊢
  simp only [List.any_eq_true, Bool.and_eq_true] at h ⊢
  obtain ⟨i, hi, hb, a, ha, hm⟩ := h
  exact ⟨i, hi, hb, a, hsub a ha, hm⟩

/-- Claim C5 (corrected): the classifier's precedence overrides the numeric
keywords — a question containing "limit" (with word boundaries, so the code's
own numeric matcher fires on it) that also matches the scenario patterns is
classified scenario_analysis with top_k = 7, not numeric_lookup with
top_k = 4. -/
theorem classify_query_limit_precedence_cx :
    patSearch [PatAlt.lit "limit"] "What if I exceed the limit?" = true ∧
    classify_query "What if I exceed the limit?" =
      { label := "scenario_analysis", top_k := 7,
        reason := "Question describes a hypothetical or real-world scenario." } :=
  ⟨by decide, by decide⟩

/-- Claim C5 (amended): a question containing "how much", "maximum", or
"limit" (as word-bounded phrases) that matches none of the higher-precedence
gap, scenario, or summary pattern groups is classified numeric_lookup with
top_k = 4. -/
theorem classify_query_numeric_amended (question : String)
    (hnum : patSearch [PatAlt.lit "how much", PatAlt.lit "maximum", PatAlt.lit "limit"]
      (pyStrip question) = true)
    (hgap : patSearch gapAlts (pyStrip question) = false)
    (hscen : patSearch scenarioAlts (pyStrip question) = false)
    (hsumm : patSearch summaryAlts (pyStrip question) = false) :
    classify_query question =
      { label := "numeric_lookup", top_k := 4,
        reason := "Question asks for a numeric value or limit." } := by
  have hnum' : patSearch numericAlts (pyStrip question) = true := by
    refine patSearch_mono _ _ _ ?_ hnum
    intro a ha
    rcases List.mem_cons.mp ha with h | ha
    · subst h; decide
    rcases List.mem_cons.mp ha with h | ha
    · subst h; decide
    rcases List.mem_cons.mp ha with h | ha
    · subst h; decide
    · cases ha
  simp [classify_query, hgap, hscen, hsumm, hnum']

/-- Witness for C5's amended theorem at a concrete numeric question. -/
theorem classify_query_numeric_amended_witness :
    classify_query "What is the maximum leave allowed" =
      { label := "numeric_lookup", top_k := 4,
        reason := "Question asks for a numeric value or limit." } :=
  classify_query_numeric_amended "What is the maximum leave allowed"
    (by decide) (by decide) (by decide) (by decide)

/-- Claim C2: for a numeric_lookup question the retrieval set used by
`answer_question` is `numericMerge table_docs retrieved`: exactly the table
chunks whose chunk_id is not among the regular results are prepended, each
with injected score 0.9, the regular results keep their order behind them,
and (when each side's ids are duplicate-free, as Chroma guarantees for a
single search) no chunk_id appears twice in the merged list. -/
theorem numericMerge_table_priority (table_docs : List Document)
    (dws : List (Document × ℚ))
    (ht : (table_docs.map Document.chunk_id).Nodup)
    (hr : ((dws.map Prod.fst).map Document.chunk_id).Nodup) :
    ∃ extra : List Document,
      numericMerge table_docs dws = extra.map (fun d => (d, mkRat 9 10)) ++ dws ∧
      (∀ d : Document, d ∈ extra ↔
        d ∈ table_docs ∧ d.chunk_id ∉ (dws.map Prod.fst).map Document.chunk_id) ∧
      ((numericMerge table_docs dws).map (fun p => p.1.chunk_id)).Nodup := by
  refine ⟨table_docs.filter
    (fun d => decide (d.chunk_id ∉ (dws.map Prod.fst).map Document.chunk_id)), rfl, ?_, ?_⟩
  · intro d
    simp [List.mem_filter]
  · show ((_ ++ _ : List (Document × ℚ)).map _).Nodup
    rw [List.map_append, List.map_map]
    have hkey : ((fun p : Document × ℚ => p.1.chunk_id) ∘ fun d => (d, mkRat 9 10)) =
        Document.chunk_id := rfl
    rw [hkey]
    have hmapeq : dws.map (fun p : Document × ℚ => p.1.chunk_id) =
        (dws.map Prod.fst).map Document.chunk_id := by
      rw [List.map_map]; rfl
    rw [hmapeq]
    refine List.Nodup.append ?_ hr ?_
    · exact ht.sublist ((List.filter_sublist _).map _)
    · intro a haf har
      obtain ⟨d, hdf, hda⟩ := List.mem_map.mp haf
      have := (List.mem_filter.mp hdf).2
      rw [decide_eq_true_eq] at this
      exact this (hda ▸ har)

/-- Witness for C2 at a concrete table chunk and regular result with distinct
ids. -/
theorem numericMerge_table_priority_witness :
    ∃ extra : List Document,
      numericMerge [sampleTableDoc] [(sampleDoc, mkRat 3 5)] =
        extra.map (fun d => (d, mkRat 9 10)) ++ [(sampleDoc, mkRat 3 5)] ∧
      (∀ d : Document, d ∈ extra ↔
        d ∈ [sampleTableDoc] ∧
        d.chunk_id ∉ ([(sampleDoc, mkRat 3 5)].map Prod.fst).map Document.chunk_id) ∧
      ((numericMerge [sampleTableDoc] [(sampleDoc, mkRat 3 5)]).map (fun p => p.1.chunk_id)).Nodup :=
  numericMerge_table_priority [sampleTableDoc] [(sampleDoc, mkRat 3 5)] (by decide) (by decide)

/-- Claim C6: the diff threshold is exclusive on the low side — the
removed/added lists contain exactly the chunks whose best-match similarity is
strictly below 0.70 (truncated to 20), and the common count counts exactly
those with best-match ≥ 0.70, so a chunk at exactly 0.70 is common and in
neither list. -/
theorem compare_documents_threshold_boundary (collection_a collection_b : String)
    (chunks_a chunks_b : List Document) (simf : String → String → ℚ)
    (ha : chunks_a ≠ []) (hb : chunks_b ≠ []) :
    ∃ r : DiffResult,
      compare_documents collection_a collection_b chunks_a chunks_b simf = DiffOutcome.ok r ∧
      r.common_count =
        (chunks_a.filter (fun ca => decide (mkRat 7 10 ≤ bestScoreA chunks_b simf ca))).length ∧
      r.removed_in_b =
        ((chunks_a.filter (fun ca => decide (bestScoreA chunks_b simf ca < mkRat 7 10))).map
          (fun ca => diffEntryOf ca (bestScoreA chunks_b simf ca))).take 20 ∧
      r.added_in_b =
        ((chunks_b.filter (fun cb => decide (bestScoreB chunks_a simf cb < mkRat 7 10))).map
          (fun cb => diffEntryOf cb (bestScoreB chunks_a simf cb))).take 20 := by
  have hae : chunks_a.isEmpty = false := by
    cases chunks_a with
    | nil => exact absurd rfl ha
    | cons x xs => rfl
  have hbe : chunks_b.isEmpty = false := by
    cases chunks_b with
    | nil => exact absurd rfl hb
    | cons x xs => rfl
  have hflip : chunks_a.filter (fun ca => decide (¬ bestScoreA chunks_b simf ca < mkRat 7 10)) =
      chunks_a.filter (fun ca => decide (mkRat 7 10 ≤ bestScoreA chunks_b simf ca)) := by
    refine List.filter_congr ?_
    intro c _
    simp [not_lt]
  simp only [compare_documents, hae, hbe, Bool.false_and, Bool.false_eq_true, if_false]
  exact ⟨_, rfl, by rw [hflip], rfl, rfl⟩

/-- Witness for C6: two single-chunk collections whose similarity is exactly
0.70 — no removed/added entries and one common chunk. -/
theorem compare_documents_threshold_boundary_witness :
    ∃ r : DiffResult,
      compare_documents "cmp_a" "cmp_b" [sampleDoc] [sampleDocB]
        (fun _ _ => mkRat 7 10) = DiffOutcome.ok r ∧
      r.common_count = 1 ∧ r.removed_in_b = [] ∧ r.added_in_b = [] := by
  obtain ⟨r, hok, hcom, hrem, hadd⟩ :=
    compare_documents_threshold_boundary "cmp_a" "cmp_b" [sampleDoc] [sampleDocB]
      (fun _ _ => mkRat 7 10) (by decide) (by decide)
  refine ⟨r, hok, ?_, ?_, ?_⟩
  · rw [hcom]; decide
  · rw [hrem]; decide
  · rw [hadd]; decide

/-- Claim C7: comparing two non-empty collections whose chunk texts agree as
multisets (ids may differ) yields no added/removed entries, a common count
equal to A's chunk count, and the "semantically identical" summary — assuming
the (deterministic) embedding capability scores every text at least the 0.70
threshold against itself, as cosine self-similarity does. -/
theorem compare_documents_identical_texts (collection_a collection_b : String)
    (chunks_a chunks_b : List Document) (simf : String → String → ℚ)
    (ha : chunks_a ≠ [])
    (hperm : (chunks_a.map Document.page_content).Perm (chunks_b.map Document.page_content))
    (hself : ∀ t ∈ chunks_a.map Document.page_content, mkRat 7 10 ≤ simf t t) :
    ∃ r : DiffResult,
      compare_documents collection_a collection_b chunks_a chunks_b simf = DiffOutcome.ok r ∧
      r.added_in_b = [] ∧ r.removed_in_b = [] ∧
      r.common_count = chunks_a.length ∧
      r.summary = "The two documents appear semantically identical." := by
  have hb : chunks_b ≠ [] := by
    intro h
    subst h
    exact ha (List.map_eq_nil_iff.mp hperm.eq_nil)
  have hA : ∀ ca ∈ chunks_a, mkRat 7 10 ≤ bestScoreA chunks_b simf ca := by
    intro ca hca
    have htxt : ca.page_content ∈ chunks_b.map Document.page_content :=
      hperm.mem_iff.mp (List.mem_map_of_mem _ hca)
    obtain ⟨cb, hcb, hcbeq⟩ := List.mem_map.mp htxt
    have hmem : simf ca.page_content ca.page_content ∈
        chunks_b.map (fun cb => simf ca.page_content cb.page_content) := by
      refine List.mem_map.mpr ⟨cb, hcb, ?_⟩
      rw [hcbeq]
    exact le_trans (hself _ (List.mem_map_of_mem _ hca)) (mem_le_listMax _ _ hmem)
  have hB : ∀ cb ∈ chunks_b, mkRat 7 10 ≤ bestScoreB chunks_a simf cb := by
    intro cb hcb
    have htxt : cb.page_content ∈ chunks_a.map Document.page_content :=
      hperm.mem_iff.mpr (List.mem_map_of_mem _ hcb)
    obtain ⟨ca, hca, hcaeq⟩ := List.mem_map.mp htxt
    have hmem : simf cb.page_content cb.page_content ∈
        chunks_a.map (fun ca => simf ca.page_content cb.page_content) := by
      refine List.mem_map.mpr ⟨ca, hca, ?_⟩
      rw [hcaeq]
    exact le_trans (hself _ (hcaeq ▸ List.mem_map_of_mem _ hca)) (mem_le_listMax _ _ hmem)
  have hae : chunks_a.isEmpty = false := by
    cases chunks_a with
    | nil => exact absurd rfl ha
    | cons x xs => rfl
  have hbe : chunks_b.isEmpty = false := by
    cases chunks_b with
    | nil => exact absurd rfl hb
    | cons x xs => rfl
  have hrem : chunks_a.filter (fun ca => decide (bestScoreA chunks_b simf ca < mkRat 7 10)) = [] := by
    rw [List.filter_eq_nil_iff]
    intro ca hca
    simp only [decide_eq_true_eq, not_lt]
    exact hA ca hca
  have hadd : chunks_b.filter (fun cb => decide (bestScoreB chunks_a simf cb < mkRat 7 10)) = [] := by
    rw [List.filter_eq_nil_iff]
    intro cb hcb
    simp only [decide_eq_true_eq, not_lt]
    exact hB cb hcb
  have hcom : chunks_a.filter (fun ca => decide (¬ bestScoreA chunks_b simf ca < mkRat 7 10)) =
      chunks_a := by
    rw [List.filter_eq_self]
    intro ca hca
    simp only [decide_eq_true_eq, not_lt]
    exact hA ca hca
  simp only [compare_documents, hae, hbe, Bool.false_and, Bool.false_eq_true, if_false,
    hrem, hadd, hcom]
  exact ⟨_, rfl, rfl, rfl, rfl, rfl⟩

/-- Witness for C7: two singleton collections with the same text under
different ids, with a constant similarity function scoring 1. -/
theorem compare_documents_identical_texts_witness :
    ∃ r : DiffResult,
      compare_documents "cmp_a" "cmp_b" [sampleDoc] [sampleDocB] (fun _ _ => 1) =
        DiffOutcome.ok r ∧
      r.added_in_b = [] ∧ r.removed_in_b = [] ∧ r.common_count = 1 ∧
      r.summary = "The two documents appear semantically identical." := by
  obtain ⟨r, hok, h1, h2, h3, h4⟩ :=
    compare_documents_identical_texts "cmp_a" "cmp_b" [sampleDoc] [sampleDocB] (fun _ _ => 1)
      (by decide) (by decide) (by decide)
  exact ⟨r, hok, h1, h2, h3, h4⟩

end PolicyAssist
